import Mathlib

set_option maxRecDepth 1000000
set_option maxHeartbeats 16000000

/-!
Verification development for the statin reactive engine (`src/index.ts`).

The engine is shallowly embedded as a fuel-indexed interpreter over an
explicit global state mirroring the module-level mutable variables of the
source: the observer stack, the bidirectional dependency maps, the pending
effect queue, the `doNotTrack` / `disallowWrites` flags, the
`reactionsDepthMap`, and the per-computed / per-reaction instance state.
User-supplied functions (compute functions, reaction actions and effects,
action bodies) are deep-embedded as a small program syntax `Prog`
interpreted by `runProg`.  JavaScript `Error` objects are modelled by
`Err`, carrying an allocation identifier so that object identity
("the identical cached error object") is expressible.  A trace of
observable events records observer invocations, enqueues, compute runs,
reaction action/effect runs and delivered errors.
-/

namespace Statin

/-- JavaScript values flowing through signals and computeds: `undefined`
or a number.  All concrete scenarios in the test-suite style proofs use
numbers; `undef` models JS `undefined` (e.g. the result of a swallowed
error in `bulkEffects`). -/
inductive JSVal where
  | undef : JSVal
  | num : Int → JSVal
deriving DecidableEq, Repr

def JSVal.toInt : JSVal → Int
  | .undef => 0
  | .num n => n

/-- JS truthiness restricted to our value type. -/
def JSVal.truthy : JSVal → Bool
  | .undef => false
  | .num n => n != 0

/-- A JavaScript `Error` object.  `id` models object identity (allocated
from a counter at `new Error(...)` time); `statin` models the
`IS_STATIN_ERROR` marker set by `describeError`; `circular` distinguishes
`CircularReactionError` (which is constructed already marked). -/
structure Err where
  id : Nat
  msg : String
  statin : Bool
  circular : Bool
deriving DecidableEq, Repr

/-- `describeError`: already-marked errors are returned unchanged
(idempotent tagging); otherwise the message is prefixed with the source
and the marker is set.  The `id` is preserved: the source mutates the
same object in place. -/
def describeError (e : Err) (source : String) : Err :=
  if e.statin then e
  else { e with msg := "Error in " ++ source ++ ": " ++ e.msg, statin := true }

/-- Observer identities.  `comp c` is the internal `computedObserver` of
computed `c` (marked `IS_COMPUTED`); `once u` is the observer closure of
the `u`-th call to `once()` (each `createOnceLoop` iteration of a
reaction allocates a fresh one). -/
inductive Obs where
  | comp : Nat → Obs
  | once : Nat → Obs
deriving DecidableEq, Repr

/-- `isComputed` from the source: only internal computed observers carry
the `IS_COMPUTED` tag. -/
def isComputedObs : Obs → Bool
  | .comp _ => true
  | .once _ => false

/-- Dependencies: a signal, or an observer acting as a dependency (a
computed's internal observer is registered as a dependency of its
readers). -/
inductive Dep where
  | sig : Nat → Dep
  | obs : Obs → Dep
deriving DecidableEq, Repr

/-- Observable events recorded while the interpreter runs. -/
inductive Event where
  /-- An observer closure was invoked (`observer()`). -/
  | fireObs : Obs → Event
  /-- An observer was added to the pending effect queue. -/
  | enqObs : Obs → Event
  /-- The user compute function of computed `c` was invoked. -/
  | computeRun : Nat → Event
  /-- The user action of reaction `r` was invoked (via `actionWrap`). -/
  | rxActionRun : Nat → Event
  /-- The user effect of reaction `r` was invoked (via `effectWrap`). -/
  | rxEffectRun : Nat → Event
  /-- The user effect of direct once instance `u` was invoked. -/
  | onceEffectRun : Nat → Event
  /-- A signal value was stored by `set`. -/
  | sigWriteEv : Nat → JSVal → Event
  /-- An error was delivered to reaction `r`'s `onError` handler. -/
  | rxError : Nat → Err → Event
  /-- An error was delivered to a direct once instance's `onError`. -/
  | onceError : Nat → Err → Event
  /-- An error was logged to the console (`console.error`). -/
  | logError : Err → Event
deriving DecidableEq, Repr

/-- Expressions usable inside deep-embedded user programs.  `arg` is the
argument the enclosing function was called with (a computed's previous
value, a reaction effect's action value). -/
inductive Expr where
  | lit : Int → Expr
  | arg : Expr
  | addE : Expr → Int → Expr
deriving DecidableEq, Repr

def evalExpr (a : JSVal) : Expr → JSVal
  | .lit n => .num n
  | .arg => a
  | .addE e n => .num ((evalExpr a e).toInt + n)

/-- Deep-embedded user programs (compute functions, reaction actions and
effects, `action()` bodies, `once` actions/effects). -/
inductive Prog where
  | retE : Expr → Prog
  | readSig : Nat → Prog
  | writeSig : Nat → Expr → Prog
  | readComp : Nat → Prog
  /-- `signal.edit(v => mutate v)`, the mutation modelled as adding `n`. -/
  | editAddSig : Nat → Int → Prog
  | changedSig : Nat → Prog
  | seq : Prog → Prog → Prog
  /-- run the program, add `n` to its numeric result. -/
  | addK : Prog → Int → Prog
  | throwE : String → Prog
  /-- invoke the disposer passed to the enclosing action. -/
  | callDisp : Prog
  /-- truthiness conditional on the result of the first program. -/
  | cond : Prog → Prog → Prog → Prog
  /-- `condLt c n pt pf`: run `c`; if its value is `< n` run `pt` else `pf`. -/
  | condLt : Prog → Int → Prog → Prog → Prog
deriving DecidableEq, Repr

/-- What the `dispose` argument passed into a user action means:
nothing, the `internalDisposerCalled` flag of the enclosing `once()`
call, or the disposer of reaction `r` (which invokes the current
`onceDisposer`). -/
inductive DispKind where
  | none : DispKind
  | onceFlag : DispKind
  | rxDisp : Nat → DispKind
deriving DecidableEq, Repr

/-- Static definition of a computed: a display name and a compute
program (its `arg` is the previous cached value). -/
structure CompDef where
  name : String
  compute : Prog

/-- Static definition of a reaction: names, the action program, the
optional effect program (its `arg` is the last action value), and
whether an `onError` option was supplied. -/
structure RxDef where
  actName : String
  effName : String
  act : Prog
  eff : Option Prog
  hasOnError : Bool

/-- Static environment: the computeds and reactions of a scenario. -/
structure Env where
  comps : Nat → CompDef
  rxs : Nat → RxDef

/-- Mutable state of a computed (`value`, `hasChanges`, `hasError`,
`error` in the source). -/
structure CompSt where
  value : JSVal
  hasChanges : Bool
  hasError : Bool
  error : Option Err
deriving DecidableEq, Repr

def CompSt.init : CompSt := { value := .undef, hasChanges := true, hasError := false, error := none }

/-- Mutable state of a reaction instance: the cached action value and
the current `onceDisposer` target (the once id whose dependencies the
reaction's disposer clears). -/
structure RxSt where
  value : JSVal
  curOnce : Option Nat
deriving DecidableEq, Repr

def RxSt.init : RxSt := { value := .undef, curOnce := none }

/-- What a `once()` instance runs: a direct user once (action program,
effect program, names, onError flag) or the loop step of reaction `r`
(action = `actionWrap r`, effect = `onceEffect r`). -/
inductive OnceKind where
  | user : Prog → Prog → String → String → Bool → OnceKind
  | rx : Nat → OnceKind

/-- The full interpreter state, mirroring the module-level mutable
variables of the source plus per-instance state and the event trace. -/
structure St where
  sigs : Nat → JSVal
  observerMap : Dep → List Obs
  dependencyMap : Obs → List Dep
  /-- head of the list is the top of `observersStack`. -/
  stack : List Obs
  effectQueue : Option (List Obs)
  doNotTrack : Bool
  disallowWrites : Bool
  /-- name of the currently executing effect, for error labelling. -/
  currentEffect : Option String
  reactionsDepth : Nat → Nat
  comps : Nat → CompSt
  rxs : Nat → RxSt
  onceTab : Nat → OnceKind
  nextOnce : Nat
  nextErr : Nat
  dispFlag : Bool
  trace : List Event

/-- Pointwise map update. -/
def upd {κ α : Type} [DecidableEq κ] (f : κ → α) (k : κ) (v : α) : κ → α :=
  fun j => if j = k then v else f j

/-- Append an event to the trace. -/
def emit (s : St) (e : Event) : St :=
  { s with trace := e :: s.trace }

/-- JS `Set.add`: insertion-ordered, deduplicated. -/
def setAdd {α : Type} [DecidableEq α] (xs : List α) (x : α) : List α :=
  if x ∈ xs then xs else xs ++ [x]

/-- `registerDependency`: if an observer is on top of the stack and
tracking is not suppressed, add the bidirectional edge. -/
def registerDependency (d : Dep) (s : St) : St :=
  match s.stack.head? with
  | Option.none => s
  | Option.some o =>
    if s.doNotTrack then s
    else
      { s with
        observerMap := upd s.observerMap d (setAdd (s.observerMap d) o),
        dependencyMap := upd s.dependencyMap o (setAdd (s.dependencyMap o) d) }

/-- `clearDependencies`: remove the observer from the observer set of
each of its dependencies, then drop its dependency set. -/
def clearDependencies (o : Obs) (s : St) : St :=
  let om := (s.dependencyMap o).foldl
    (fun m d => upd m d ((m d).filter (fun x => x ≠ o))) s.observerMap
  { s with observerMap := om, dependencyMap := upd s.dependencyMap o [] }

/-- Allocate a fresh plain `Error` with the given message. -/
def newErr (s : St) (msg : String) : St × Err :=
  ({ s with nextErr := s.nextErr + 1 },
   { id := s.nextErr, msg := msg, statin := false, circular := false })

/-- Allocate a fresh `CircularReactionError` (constructed already marked
with `IS_STATIN_ERROR`). -/
def newCircErr (s : St) (msg : String) : St × Err :=
  ({ s with nextErr := s.nextErr + 1 },
   { id := s.nextErr, msg := msg, statin := true, circular := true })

/-- Results of interpreter steps: a value, a thrown error, or fuel
exhaustion (modelling JS unbounded recursion / stack overflow). -/
inductive Res where
  | ok : JSVal → Res
  | thrown : Err → Res
  | oot : Res
deriving DecidableEq, Repr

/-- Error routing of a `bulkEffects` call: log to console (default),
rethrow (the `action()` wrapper), or the handler a `once` observer
installs around its effect. -/
inductive BulkErr where
  | log : BulkErr
  | rethrow : BulkErr
  | onceHandler : Nat → BulkErr

/-- The body a `bulkEffects` call runs: a named user program (`action()`
bodies), the ad-hoc `() => triggerObservers(signal)` closure from
`signal.changed`, or the `effect` argument of a `once` observer. -/
inductive BulkBody where
  | prog : String → DispKind → Prog → BulkBody
  | trigger : Nat → BulkBody
  | onceEff : Nat → BulkBody

/-- Placeholder for a default error (unreachable in well-formed runs:
`hasError` implies a stored error). -/
def defaultErr : Err := { id := 0, msg := "", statin := false, circular := false }

/-- The reaction's `handleError`: deliver to the user `onError` (modelled
as an event) or, absent a handler, `handleOrLog` throws and logs. -/
def rxHandleError (env : Env) (r : Nat) (e : Err) (s : St) : St :=
  if (env.rxs r).hasOnError then emit s (.rxError r e) else emit s (.logError e)

/-- The `errorHandler` of a `once()` instance: a direct once delivers to
its own `onError` (or logs); a reaction-owned once first rebinds the
reaction's `onceDisposer` to this instance, then runs the reaction's
`handleError`. -/
def onceRoute (env : Env) (u : Nat) (e : Err) (s : St) : St :=
  match s.onceTab u with
  | .user _ _ _ _ hasOnError =>
    if hasOnError then emit s (.onceError u e) else emit s (.logError e)
  | .rx r =>
    let s := { s with rxs := upd s.rxs r { s.rxs r with curOnce := some u } }
    rxHandleError env r e s

/-- The effect name of a once instance (used for error labelling). -/
def onceEffName (env : Env) (s : St) (u : Nat) : String :=
  match s.onceTab u with
  | .user _ _ effName _ _ => effName
  | .rx r => (env.rxs r).effName

/-- Name of a `bulkEffects` body, as `fnName(currentEffect)` resolves it. -/
def bulkBodyName (env : Env) (s : St) : BulkBody → String
  | .prog name _ _ => name
  | .trigger _ => ("Unknown")
  | .onceEff u => onceEffName env s u

/-- `MAX_REACTION_DEPTH` from the source. -/
def MAX_REACTION_DEPTH : Nat := 100


/-- A pending engine operation.  Each constructor corresponds to one of
the mutually recursive functions of the source; `interp` dispatches on
it, making the whole engine a single structurally recursive function on
fuel (so that concrete runs reduce inside the kernel). -/
inductive Call where
  | sigSet : Nat → JSVal → Call
  | sigChanged : Nat → Call
  | sigEdit : Nat → (JSVal → JSVal) → Call
  | triggerObservers : Dep → Call
  | trigLoop : List Obs → Option Obs → Call
  | runObs : Obs → Call
  | bulkRun : BulkBody → BulkErr → Call
  | drain : Call
  | drainList : List Obs → Call
  | computedGet : Nat → Call
  | runProg : Prog → JSVal → DispKind → Call
  | onceCreate : OnceKind → Call
  | rxOnceEffect : Nat → Call
  | effectWrap : Nat → Call
  | runBody : BulkBody → Call
  | runAction : String → Prog → Call

/-- After `once()` returns inside a reaction's `createOnceLoop`, the
reaction stores the returned disposer (`onceDisposer = once(...)`). -/
def finalizeOnce : OnceKind → Nat → St → St
  | .user _ _ _ _ _, _, s => s
  | .rx r, u, s => { s with rxs := upd s.rxs r { s.rxs r with curOnce := some u } }

/-- The engine interpreter.  One arm per source function:

* `sigSet` — `signal.set` / `signal.w`: throw if writes are disallowed;
  no-op if the value is identical; otherwise store and call `changed()`.
* `sigChanged` — `signal.changed`: with no open batch, open an ad-hoc
  one around the notification; otherwise notify into the shared
  scheduler.
* `sigEdit` — `signal.edit`: run the mutator on the current value
  (in-place mutation modelled as applying `f`), then `changed()`; no
  `disallowWrites` check, no dependency registration.
* `triggerObservers` — snapshot the dependency's observer set and the
  current top of the observer stack, then loop (`trigLoop`): skip the
  captured current observer; enqueue non-computed observers while a
  batch is open; otherwise invoke inline.
* `runObs` — invoke an observer closure: a computed's internal observer
  clears its error, marks itself dirty, clears its edges and propagates
  to its own dependents; a once observer disposes itself then runs its
  effect inside a nested `bulkEffects` with its own error handling.
* `bulkRun` — `bulkEffects`: open the root batch if none is open
  (resetting the reaction depth map), run the body, route a thrown
  error (log, rethrow after the drain, or once-handler), and — if this
  call opened the root — drain the pending queue in rounds before
  closing it.
* `drain` / `drainList` — the round-based drain loop: repeatedly swap
  out the pending set and invoke its members until a round schedules
  nothing further.
* `computedGet` — a computed's `get`: register self as a dependency of
  the caller; if dirty, push the internal observer, disallow writes,
  run the compute function with tracking resumed and the previous value
  as argument, cache the value or the described error, then
  unconditionally clear `disallowWrites`, clear the dirty flag and pop;
  finally re-throw a cached error or return the cached value.
* `runProg` — interpret a deep-embedded user program.
* `onceCreate` — `once()`: allocate a fresh observer, push it, run the
  action with tracking resumed (passing the internal disposer), dispose
  immediately if the disposer was called synchronously; a thrown action
  error is described and routed; finally pop and (for a reaction-owned
  once) bind the reaction's `onceDisposer` to this instance.
* `rxOnceEffect` — the reaction's `onceEffect`: check the per-instance
  reentry counter against the ceiling, raise `CircularReactionError`
  beyond it, otherwise bump the counter, re-subscribe via
  `createOnceLoop`, and run the effect wrapper.
* `effectWrap` — run the user effect (if any) with the cached action
  value, catching and routing its errors.
* `runBody` — dispatch a `bulkEffects` body.
* `runAction` — `action(fn)`: suppress tracking, delegate to
  `bulkEffects` with a rethrowing error handler, restore the previous
  suppression state. -/
def interp : Nat → Env → Call → St → St × Res
  | 0, _, _, s => (s, .oot)
  | fuel + 1, env, q, s =>
    match q with
    | .sigSet i v =>
      if s.disallowWrites then
        let (s, e) := newErr s ("Writing to signals not allowed in this context.")
        (s, .thrown e)
      else if v ≠ s.sigs i then
        let s := { s with sigs := upd s.sigs i v }
        let s := emit s (.sigWriteEv i v)
        interp fuel env (.sigChanged i) s
      else (s, .ok .undef)
    | .sigChanged i =>
      if s.effectQueue.isSome then interp fuel env (.triggerObservers (.sig i)) s
      else interp fuel env (.bulkRun (.trigger i) .log) s
    | .sigEdit i f =>
      let s := { s with sigs := upd s.sigs i (f (s.sigs i)) }
      interp fuel env (.sigChanged i) s
    | .triggerObservers d =>
      interp fuel env (.trigLoop (s.observerMap d) s.stack.head?) s
    | .trigLoop l cur =>
      match l with
      | [] => (s, .ok .undef)
      | o :: rest =>
        if cur = some o then interp fuel env (.trigLoop rest cur) s
        else if s.effectQueue.isSome && !isComputedObs o then
          let s := emit s (.enqObs o)
          let s := { s with effectQueue := s.effectQueue.map (fun t => setAdd t o) }
          interp fuel env (.trigLoop rest cur) s
        else
          match interp fuel env (.runObs o) s with
          | (s, .ok _) => interp fuel env (.trigLoop rest cur) s
          | (s, .thrown e) => (s, .thrown e)
          | (s, .oot) => (s, .oot)
    | .runObs o =>
      match o with
      | .comp c =>
        let s := emit s (.fireObs (.comp c))
        let cst := s.comps c
        let cst2 := { cst with hasError := false, error := none, hasChanges := true }
        let s := { s with comps := upd s.comps c cst2 }
        let s := clearDependencies (.comp c) s
        interp fuel env (.triggerObservers (.obs (.comp c))) s
      | .once u =>
        let s := emit s (.fireObs (.once u))
        let s := clearDependencies (.once u) s
        interp fuel env (.bulkRun (.onceEff u) (.onceHandler u)) s
    | .bulkRun b ek =>
      let isRoot := s.effectQueue.isNone
      let s := if isRoot then
          { s with effectQueue := some [], reactionsDepth := fun _ => 0 }
        else s
      let parentEffect := s.currentEffect
      let name := bulkBodyName env s b
      let s := { s with currentEffect := some name }
      match interp fuel env (.runBody b) s with
      | (s, .oot) => (s, .oot)
      | (s, r) =>
        let (s, pending) : St × Option Err :=
          match r with
          | .thrown e =>
            let e := describeError e name
            match ek with
            | .log => (emit s (.logError e), none)
            | .rethrow => (s, some e)
            | .onceHandler u => (onceRoute env u (describeError e (onceEffName env s u)) s, none)
          | _ => (s, none)
        if isRoot then
          match interp fuel env .drain s with
          | (s, .ok _) =>
            let s := { s with reactionsDepth := fun _ => 0, effectQueue := none,
                              currentEffect := parentEffect }
            (s, match pending with
                | some e => .thrown e
                | none => match r with | .ok v => .ok v | _ => .ok .undef)
          | (s, .thrown e) => (s, .thrown e)
          | (s, .oot) => (s, .oot)
        else
          let s := { s with currentEffect := parentEffect }
          (s, match pending with
              | some e => .thrown e
              | none => match r with | .ok v => .ok v | _ => .ok .undef)
    | .drain =>
      match s.effectQueue with
      | none => (s, .ok .undef)
      | some [] => (s, .ok .undef)
      | some l =>
        let s := { s with effectQueue := some [] }
        match interp fuel env (.drainList l) s with
        | (s, .ok _) => interp fuel env .drain s
        | (s, .thrown e) => (s, .thrown e)
        | (s, .oot) => (s, .oot)
    | .drainList l =>
      match l with
      | [] => (s, .ok .undef)
      | o :: rest =>
        match interp fuel env (.runObs o) s with
        | (s, .ok _) => interp fuel env (.drainList rest) s
        | (s, .thrown e) => (s, .thrown e)
        | (s, .oot) => (s, .oot)
    | .computedGet c =>
      let s := registerDependency (.obs (.comp c)) s
      let s1 :=
        if (s.comps c).hasChanges then
          let s := { s with stack := (.comp c) :: s.stack, disallowWrites := true }
          let cst2 := { s.comps c with hasError := false, error := none }
          let s := { s with comps := upd s.comps c cst2 }
          let parentDNT := s.doNotTrack
          let s := { s with doNotTrack := false }
          let s := emit s (.computeRun c)
          match interp fuel env (.runProg (env.comps c).compute (s.comps c).value .none) s with
          | (_, .oot) => none
          | (s, .ok v) =>
            let s := { s with doNotTrack := parentDNT }
            let s := { s with comps := upd s.comps c { s.comps c with value := v } }
            some { s with disallowWrites := false,
                          comps := upd s.comps c { s.comps c with hasChanges := false },
                          stack := s.stack.tail }
          | (s, .thrown e) =>
            let s := { s with doNotTrack := parentDNT }
            let e := describeError e (env.comps c).name
            let cst3 := { s.comps c with hasError := true, error := some e }
            let s := { s with comps := upd s.comps c cst3 }
            some { s with disallowWrites := false,
                          comps := upd s.comps c { s.comps c with hasChanges := false },
                          stack := s.stack.tail }
        else some s
      match s1 with
      | none => (s, .oot)
      | some s =>
        let cst := s.comps c
        if cst.hasError then (s, .thrown (cst.error.getD defaultErr))
        else (s, .ok cst.value)
    | .runProg p a dk =>
      match p with
      | .retE e => (s, .ok (evalExpr a e))
      | .readSig i =>
        let s := registerDependency (.sig i) s
        (s, .ok (s.sigs i))
      | .writeSig i e => interp fuel env (.sigSet i (evalExpr a e)) s
      | .readComp c => interp fuel env (.computedGet c) s
      | .editAddSig i n => interp fuel env (.sigEdit i (fun v => .num (v.toInt + n))) s
      | .changedSig i => interp fuel env (.sigChanged i) s
      | .seq p1 p2 =>
        match interp fuel env (.runProg p1 a dk) s with
        | (s, .ok _) => interp fuel env (.runProg p2 a dk) s
        | (s, .thrown e) => (s, .thrown e)
        | (s, .oot) => (s, .oot)
      | .addK p1 n =>
        match interp fuel env (.runProg p1 a dk) s with
        | (s, .ok v) => (s, .ok (.num (v.toInt + n)))
        | (s, .thrown e) => (s, .thrown e)
        | (s, .oot) => (s, .oot)
      | .throwE msg =>
        let (s, e) := newErr s msg
        (s, .thrown e)
      | .callDisp =>
        match dk with
        | .none => (s, .ok .undef)
        | .onceFlag => ({ s with dispFlag := true }, .ok .undef)
        | .rxDisp r =>
          match (s.rxs r).curOnce with
          | some u => (clearDependencies (.once u) s, .ok .undef)
          | none => (s, .ok .undef)
      | .cond c pt pf =>
        match interp fuel env (.runProg c a dk) s with
        | (s, .ok v) =>
          if v.truthy then interp fuel env (.runProg pt a dk) s
          else interp fuel env (.runProg pf a dk) s
        | (s, .thrown e) => (s, .thrown e)
        | (s, .oot) => (s, .oot)
      | .condLt c n pt pf =>
        match interp fuel env (.runProg c a dk) s with
        | (s, .ok v) =>
          if v.toInt < n then interp fuel env (.runProg pt a dk) s
          else interp fuel env (.runProg pf a dk) s
        | (s, .thrown e) => (s, .thrown e)
        | (s, .oot) => (s, .oot)
    | .onceCreate k =>
      let u := s.nextOnce
      let s := { s with nextOnce := u + 1, onceTab := upd s.onceTab u k }
      let s := { s with stack := (.once u) :: s.stack }
      let parentFlag := s.dispFlag
      let s := { s with dispFlag := false }
      let parentDNT := s.doNotTrack
      let s := { s with doNotTrack := false }
      let (s, r) :=
        match k with
        | .user act _ _ _ _ => interp fuel env (.runProg act .undef .onceFlag) s
        | .rx rxi =>
          let s := emit s (.rxActionRun rxi)
          match interp fuel env (.runProg (env.rxs rxi).act .undef (.rxDisp rxi)) s with
          | (s, .ok v) => ({ s with rxs := upd s.rxs rxi { s.rxs rxi with value := v } }, .ok v)
          | (s, .thrown e) => (s, .thrown e)
          | (s, .oot) => (s, .oot)
      let s := { s with doNotTrack := parentDNT }
      match r with
      | .oot => (s, .oot)
      | .ok _ =>
        let flag := s.dispFlag
        let s := { s with dispFlag := parentFlag }
        let s := if flag then clearDependencies (.once u) s else s
        let s := { s with stack := s.stack.tail }
        let s := finalizeOnce k u s
        (s, .ok .undef)
      | .thrown e =>
        let s := { s with dispFlag := parentFlag }
        let obsName :=
          match k with
          | .user _ _ _ oname _ => oname
          | .rx rxi => (env.rxs rxi).actName
        let e := describeError e obsName
        let s := onceRoute env u e s
        let s := { s with stack := s.stack.tail }
        let s := finalizeOnce k u s
        (s, .ok .undef)
    | .rxOnceEffect r =>
      let d := s.reactionsDepth r
      if d > MAX_REACTION_DEPTH then
        let rd := env.rxs r
        let msg := "Circular reaction in " ++ rd.actName ++
          (if rd.eff.isSome then ("->" ++ rd.effName) else ("")) ++ ":..."
        let (s, e) := newCircErr s msg
        (s, .thrown e)
      else
        let s := { s with reactionsDepth := upd s.reactionsDepth r (d + 1) }
        match interp fuel env (.onceCreate (.rx r)) s with
        | (s, .ok _) => interp fuel env (.effectWrap r) s
        | (s, .thrown e) => (s, .thrown e)
        | (s, .oot) => (s, .oot)
    | .effectWrap r =>
      match (env.rxs r).eff with
      | none => (s, .ok .undef)
      | some p =>
        let s := emit s (.rxEffectRun r)
        match interp fuel env (.runProg p (s.rxs r).value (.rxDisp r)) s with
        | (s, .ok _) => (s, .ok .undef)
        | (s, .thrown e) =>
          let e := describeError e (env.rxs r).effName
          (rxHandleError env r e s, .ok .undef)
        | (s, .oot) => (s, .oot)
    | .runBody b =>
      match b with
      | .prog _ dk p => interp fuel env (.runProg p .undef dk) s
      | .trigger i => interp fuel env (.triggerObservers (.sig i)) s
      | .onceEff u =>
        match s.onceTab u with
        | .user _ eff _ _ _ =>
          let s := emit s (.onceEffectRun u)
          interp fuel env (.runProg eff .undef .none) s
        | .rx r => interp fuel env (.rxOnceEffect r) s
    | .runAction name p =>
      let parentDNT := s.doNotTrack
      let s := { s with doNotTrack := true }
      let (s, r) := interp fuel env (.bulkRun (.prog name .none p) .rethrow) s
      ({ s with doNotTrack := parentDNT }, r)
termination_by structural a0 _ _ _ => a0

/-- `signal.set` / `signal.w`. -/
def sigSet (fuel : Nat) (env : Env) (i : Nat) (v : JSVal) (s : St) : St × Res :=
  interp fuel env (.sigSet i v) s

/-- `signal.changed`. -/
def sigChanged (fuel : Nat) (env : Env) (i : Nat) (s : St) : St × Res :=
  interp fuel env (.sigChanged i) s

/-- `signal.edit`. -/
def sigEdit (fuel : Nat) (env : Env) (i : Nat) (f : JSVal → JSVal) (s : St) : St × Res :=
  interp fuel env (.sigEdit i f) s

/-- `triggerObservers`. -/
def triggerObservers (fuel : Nat) (env : Env) (d : Dep) (s : St) : St × Res :=
  interp fuel env (.triggerObservers d) s

/-- A computed's `get`. -/
def computedGet (fuel : Nat) (env : Env) (c : Nat) (s : St) : St × Res :=
  interp fuel env (.computedGet c) s

/-- `once()`. -/
def onceCreate (fuel : Nat) (env : Env) (k : OnceKind) (s : St) : St × Res :=
  interp fuel env (.onceCreate k) s

/-- `action(fn)`. -/
def runAction (fuel : Nat) (env : Env) (name : String) (p : Prog) (s : St) : St × Res :=
  interp fuel env (.runAction name p) s

/-- `reaction(action, effect?, options)`: start the once loop (the
`immediate` option is not used by any scenario here). -/
def rxCreate (fuel : Nat) (env : Env) (r : Nat) (s : St) : St × Res :=
  onceCreate fuel env (.rx r) s

/-! ## Event counting helpers -/

/-- Predicate for the user-effect invocation of reaction `r`. -/
def isRxEffectRun (r : Nat) : Event → Bool
  | .rxEffectRun v => v == r
  | _ => false

/-- Predicate for the user-action invocation of reaction `r`. -/
def isRxActionRun (r : Nat) : Event → Bool
  | .rxActionRun v => v == r
  | _ => false

/-- Predicate for the user compute invocation of computed `c`. -/
def isComputeRunEv (c : Nat) : Event → Bool
  | .computeRun v => v == c
  | _ => false

/-- Predicate for the user-effect invocation of direct once `u`. -/
def isOnceEffectRun (u : Nat) : Event → Bool
  | .onceEffectRun v => v == u
  | _ => false

/-- Predicate for an enqueue of observer `o` into the effect queue. -/
def isEnqOf (o : Obs) : Event → Bool
  | .enqObs v => v == o
  | _ => false

/-- Predicate for an inline invocation of observer `o`. -/
def isFireOf (o : Obs) : Event → Bool
  | .fireObs v => v == o
  | _ => false

/-- Predicate for a delivered `CircularReactionError`. -/
def isCircDelivered : Event → Bool
  | .rxError _ e => e.circular
  | _ => false

/-! ## Scenario scaffolding -/

/-- A placeholder computed definition for unused slots. -/
def emptyCompDef : CompDef := { name := "None", compute := .retE (.lit 0) }

/-- A placeholder reaction definition for unused slots. -/
def emptyRxDef : RxDef :=
  { actName := "None", effName := "None", act := .retE (.lit 0), eff := none, hasOnError := false }

/-- The pristine module state with the given initial signal values:
empty maps, empty stack, no open batch, tracking enabled, writes
allowed. -/
def initSt (sv : Nat → JSVal) : St :=
  { sigs := sv, observerMap := fun _ => [], dependencyMap := fun _ => [],
    stack := [], effectQueue := none, doNotTrack := false, disallowWrites := false,
    currentEffect := none, reactionsDepth := fun _ => 0, comps := fun _ => CompSt.init,
    rxs := fun _ => RxSt.init,
    onceTab := fun _ => OnceKind.user (.retE (.lit 0)) (.retE (.lit 0)) ("") ("") false,
    nextOnce := 0, nextErr := 0, dispFlag := false, trace := [] }

/-! ## Concrete scenarios -/

/-- C1 scenario: signal `0` is A, computed `0` is `B = A + 10`,
computed `1` is `C = A + 100`, reaction `0` reads A, B and C. -/
def c1CompB : CompDef := { name := "B", compute := .addK (.readSig 0) 10 }

/-- C1 scenario: the second computed. -/
def c1CompC : CompDef := { name := "C", compute := .addK (.readSig 0) 100 }

/-- C1 scenario: the reaction reading A, B and C (action-only form). -/
def c1Rx : RxDef :=
  { actName := "R", effName := "RE",
    act := .seq (.readSig 0) (.seq (.readComp 0) (.readComp 1)),
    eff := none, hasOnError := false }

/-- C1 scenario environment. -/
def c1Env : Env :=
  { comps := fun c => if c = 0 then c1CompB else c1CompC, rxs := fun _ => c1Rx }

/-- C1 scenario: state after constructing the reaction (its once
observer has id `0`). -/
def c1Setup : St := (rxCreate 1000 c1Env 0 (initSt (fun _ => .num 1))).1

/-- C1 scenario: one write to A inside `action()`. -/
def c1Run : St × Res := runAction 1000 c1Env ("Action") (.writeSig 0 (.lit 2)) c1Setup

/-- C4 scenario: a computed that throws while signal `0` is truthy and
returns `7` otherwise. -/
def c4CompFoo : CompDef :=
  { name := "ComputeFoo", compute := .cond (.readSig 0) (.throwE ("foo")) (.retE (.lit 7)) }

/-- C4 scenario: a computed that always throws after reading signal `1`. -/
def c4CompBar : CompDef :=
  { name := "AlwaysThrow", compute := .seq (.readSig 1) (.throwE ("bar")) }

/-- C4 scenario environment. -/
def c4Env : Env :=
  { comps := fun c => if c = 0 then c4CompFoo else c4CompBar, rxs := fun _ => emptyRxDef }

/-- C4 scenario: initial state, all signals truthy. -/
def c4S0 : St := initSt (fun _ => .num 1)

/-- C4 scenario: first read of the throwing computed. -/
def c4Get1 : St × Res := computedGet 100 c4Env 0 c4S0

/-- C4 scenario: second read, no invalidation in between. -/
def c4Get2 : St × Res := computedGet 100 c4Env 0 c4Get1.1

/-- C4 scenario: the offending dependency changes. -/
def c4Inv : St × Res := sigSet 100 c4Env 0 (.num 0) c4Get2.1

/-- C4 scenario: read after invalidation. -/
def c4Get3 : St × Res := computedGet 100 c4Env 0 c4Inv.1

/-- C4 scenario: the error object cached by the first evaluation. -/
def c4ErrFoo : Err :=
  { id := 0, msg := "Error in ComputeFoo: foo", statin := true, circular := false }

/-- C4 scenario: first read of the always-throwing computed. -/
def c4H1 : St × Res := computedGet 100 c4Env 1 c4S0

/-- C4 scenario: its dependency changes. -/
def c4HInv : St × Res := sigSet 100 c4Env 1 (.num 5) c4H1.1

/-- C4 scenario: read after invalidation captures a fresh error object. -/
def c4H2 : St × Res := computedGet 100 c4Env 1 c4HInv.1

/-- C5 scenario: the circular reaction of the test suite — the action
reads signal `0`, the effect unconditionally rewrites it. -/
def c5Rx : RxDef :=
  { actName := "myAction", effName := "myEffect", act := .readSig 0,
    eff := some (.writeSig 0 (.addE .arg 1)), hasOnError := true }

/-- C5 scenario environment. -/
def c5Env : Env := { comps := fun _ => emptyCompDef, rxs := fun _ => c5Rx }

/-- C5 scenario: state after constructing the reaction over `count = -1`. -/
def c5Setup : St := (rxCreate 3000 c5Env 0 (initSt (fun _ => .num (-1)))).1

/-- C5 scenario: `action(() => count(0))`. -/
def c5Run : St × Res := runAction 3000 c5Env ("Action") (.writeSig 0 (.lit 0)) c5Setup

/-- C5 reset scenario: the effect rewrites the signal only while the
action value is below 60, so each batch fires a bounded cascade. -/
def c5bRx : RxDef :=
  { actName := "A", effName := "E", act := .readSig 0,
    eff := some (.condLt (.retE .arg) 60 (.writeSig 0 (.addE .arg 1)) (.retE (.lit 0))),
    hasOnError := true }

/-- C5 reset scenario environment. -/
def c5bEnv : Env := { comps := fun _ => emptyCompDef, rxs := fun _ => c5bRx }

/-- C5 reset scenario: construction. -/
def c5bSetup : St := (rxCreate 3000 c5bEnv 0 (initSt (fun _ => .num 0))).1

/-- C5 reset scenario: first outermost batch (60 firings). -/
def c5bRunA : St × Res := runAction 3000 c5bEnv ("Action") (.writeSig 0 (.lit 1)) c5bSetup

/-- C5 reset scenario: second outermost batch (61 more firings). -/
def c5bRunB : St × Res := runAction 3000 c5bEnv ("Action") (.writeSig 0 (.lit 0)) c5bRunA.1

/-- C6 scenario: two action-only reactions both reading signal `0`. -/
def c6Env : Env :=
  { comps := fun _ => emptyCompDef,
    rxs := fun r =>
      if r = 0 then
        { actName := "R0", effName := "E0", act := .readSig 0, eff := none, hasOnError := false }
      else
        { actName := "R1", effName := "E1", act := .seq (.readSig 0) (.retE (.lit 5)),
          eff := none, hasOnError := false } }

/-- C6 scenario: both reactions constructed. -/
def c6Setup : St :=
  let s := (rxCreate 1000 c6Env 0 (initSt (fun _ => .num 0))).1
  (rxCreate 1000 c6Env 1 s).1

/-- C6 scenario: an action that writes signal `0` and then throws. -/
def c6Run : St × Res :=
  runAction 1000 c6Env ("MyAction") (.seq (.writeSig 0 (.lit 1)) (.throwE ("boom"))) c6Setup

/-- C8 environment (no computeds or reactions involved). -/
def c8Env : Env := { comps := fun _ => emptyCompDef, rxs := fun _ => emptyRxDef }

/-- C8 scenario (a): a once whose action reads signal `0`, calls the
passed-in disposer synchronously, then reads signal `1`. -/
def c8DispOnce : OnceKind :=
  .user (.seq (.readSig 0) (.seq .callDisp (.readSig 1))) (.retE (.lit 0)) ("E") ("O") false

/-- C8 scenario (a): construction (once observer id `0`). -/
def c8DispSetup : St × Res := onceCreate 100 c8Env c8DispOnce (initSt (fun _ => .num 0))

/-- C8 scenario (a): change a dependency read before the dispose call. -/
def c8DispW1 : St × Res := sigSet 100 c8Env 0 (.num 1) c8DispSetup.1

/-- C8 scenario (a): change a dependency read after the dispose call. -/
def c8DispW2 : St × Res := sigSet 100 c8Env 1 (.num 1) c8DispW1.1

/-- C8 scenario (b): a plain once whose action reads signal `0`. -/
def c8NormOnce : OnceKind := .user (.readSig 0) (.retE (.lit 0)) ("E") ("O") false

/-- C8 scenario (b): construction (once observer id `0`). -/
def c8NormSetup : St × Res := onceCreate 100 c8Env c8NormOnce (initSt (fun _ => .num 0))

/-- C8 scenario (b): first change to the tracked dependency. -/
def c8W1 : St × Res := sigSet 100 c8Env 0 (.num 1) c8NormSetup.1

/-- C8 scenario (b): second change to the tracked dependency. -/
def c8W2 : St × Res := sigSet 100 c8Env 0 (.num 2) c8W1.1

/-! ## Claim theorems (concrete scenarios) -/

/-- C1: with signal A, computeds `B = f(A)` and `C = g(A)`, and a
reaction whose action reads A, B and C, one write to A inside
`action()` runs the reaction's body exactly once during the drain (its
action ran once at construction, twice in total after the action call);
the reaction's observer was enqueued three times but deduplicated into
one set entry and fired once, while both computed observers ran inline
exactly once each and the cached values are fresh when the reaction
re-reads them. -/
theorem c1_reaction_runs_once_per_action :
    c1Setup.trace.countP (isRxActionRun 0) = 1 ∧
    c1Run.1.trace.countP (isRxActionRun 0) = 2 ∧
    c1Run.2 = .ok .undef ∧
    c1Run.1.trace.countP (isEnqOf (.once 0)) = 3 ∧
    c1Run.1.trace.countP (isFireOf (.once 0)) = 1 ∧
    c1Run.1.trace.countP (isFireOf (.comp 0)) = 1 ∧
    c1Run.1.trace.countP (isFireOf (.comp 1)) = 1 ∧
    (c1Run.1.comps 0).value = .num 12 ∧
    (c1Run.1.comps 1).value = .num 102 := by
  decide

/-- C4: a computed whose evaluation throws yields a source-labelled
error on the first read; a second read with no invalidation re-throws
the identical cached error object (same allocation id); after the
offending dependency changes, the next read re-evaluates and returns a
fresh value.  For a computed that throws again after invalidation, the
next read throws a newly captured error object (allocation id `1`),
never the stale cached one (id `0`). -/
theorem c4_computed_error_caching :
    c4Get1.2 = .thrown c4ErrFoo ∧
    c4Get2.2 = .thrown c4ErrFoo ∧
    c4Get3.2 = .ok (.num 7) ∧
    c4H1.2 = .thrown { id := 0, msg := "Error in AlwaysThrow: bar",
                       statin := true, circular := false } ∧
    c4H2.2 = .thrown { id := 1, msg := "Error in AlwaysThrow: bar",
                       statin := true, circular := false } := by
  decide

/-- C5: a reaction whose effect unconditionally rewrites a signal its
action reads fires exactly 101 times inside one outermost batch and
then a `CircularReactionError` naming the action and effect is
delivered to its `onError` handler (the signal ends at 101, as in the
test suite); and the per-instance counter resets on a new outermost
batch: a self-rewriting reaction bounded below the ceiling fires 60
times in one batch and 61 more in a second batch — 121 total, beyond
the 101 ceiling — with no circularity error. -/
theorem c5_circular_reaction_ceiling :
    c5Run.1.sigs 0 = .num 101 ∧
    c5Run.1.trace.countP (isRxEffectRun 0) = 101 ∧
    c5Run.1.trace.countP isCircDelivered = 1 ∧
    (Event.rxError 0 { id := 0, msg := "Circular reaction in myAction->myEffect:...",
                       statin := true, circular := true }) ∈ c5Run.1.trace ∧
    c5Run.2 = .ok .undef ∧
    c5bRunA.1.trace.countP (isRxEffectRun 0) = 60 ∧
    c5bRunB.1.trace.countP (isRxEffectRun 0) = 121 ∧
    c5bRunB.1.trace.countP isCircDelivered = 0 ∧
    c5bRunA.2 = .ok .undef ∧ c5bRunB.2 = .ok .undef := by
  decide

/-- C6: an `action()` whose body writes a signal and then throws still
invokes every effect queued by the write — both subscribed reactions
re-run their actions during the drain — and then the source-labelled
error propagates synchronously to the caller. -/
theorem c6_action_drains_before_rethrow :
    c6Run.2 = .thrown { id := 0, msg := "Error in MyAction: boom",
                        statin := true, circular := false } ∧
    c6Run.1.trace.countP (isRxActionRun 0) = 2 ∧
    c6Run.1.trace.countP (isRxActionRun 1) = 2 := by
  decide

/-- C8: (a) if a once action invokes its passed-in disposer
synchronously before returning, the subscription is discarded
immediately — the observer sets of both tracked signals are empty,
including the one read after the disposer call, and the effect never
fires on later changes; (b) otherwise the effect fires exactly once, on
the first change to a tracked dependency, the action is not
resubscribed (the signal's observer set is empty after the firing), and
a second change fires nothing. -/
theorem c8_once_fires_exactly_once :
    c8DispSetup.1.observerMap (.sig 0) = [] ∧
    c8DispSetup.1.observerMap (.sig 1) = [] ∧
    c8DispSetup.1.dependencyMap (.once 0) = [] ∧
    c8DispW2.1.trace.countP (isOnceEffectRun 0) = 0 ∧
    c8W1.1.trace.countP (isOnceEffectRun 0) = 1 ∧
    c8W1.1.observerMap (.sig 0) = [] ∧
    c8W2.1.trace.countP (isOnceEffectRun 0) = 1 := by
  decide

/-! ## C7 scenario: nested computed evaluation -/

/-- C7 scenario: the inner computed, reading signal `0`. -/
def c7Inner : CompDef := { name := "Inner", compute := .readSig 0 }

/-- C7 scenario: the outer computed reads the nested computed and then
attempts to write signal `1`. -/
def c7Outer : CompDef :=
  { name := "Outer",
    compute := .seq (.readComp 0) (.seq (.writeSig 1 (.lit 5)) (.retE (.lit 42))) }

/-- C7 scenario: a computed that writes a signal with no nested read. -/
def c7Solo : CompDef := { name := "Solo", compute := .writeSig 1 (.lit 9) }

/-- C7 scenario environment. -/
def c7Env : Env :=
  { comps := fun c => if c = 0 then c7Inner else if c = 1 then c7Outer else c7Solo,
    rxs := fun _ => emptyRxDef }

/-- C7 scenario: reading the outer computed from a pristine state. -/
def c7Run : St × Res := computedGet 100 c7Env 1 (initSt (fun _ => .num 0))

/-- C7 scenario: reading the solo writing computed from a pristine state. -/
def c7SoloRun : St × Res := computedGet 100 c7Env 2 (initSt (fun _ => .num 0))

/-- C7 counterexample: the claim asserts that a signal write attempted
in the outer compute function after a nested computed read fails with a
write-violation error.  It does not: the nested `get`'s `finally` block
sets `disallowWrites` to `false` unconditionally instead of restoring
the prior value, so the outer computation's write succeeds — the outer
read returns `42` normally and signal `1` holds the written value. -/
theorem c7_counterexample :
    c7Run.2 = .ok (.num 42) ∧ c7Run.1.sigs 1 = .num 5 := by
  decide

/-- Projection lemma: `registerDependency` only touches the dependency
maps. -/
theorem registerDependency_comps (d : Dep) (s : St) :
    (registerDependency d s).comps = s.comps := by
  unfold registerDependency
  cases s.stack.head? <;> simp <;> split <;> rfl

/-- Projection lemma: `registerDependency` leaves the stack alone. -/
theorem registerDependency_stack (d : Dep) (s : St) :
    (registerDependency d s).stack = s.stack := by
  unfold registerDependency
  cases s.stack.head? <;> simp <;> split <;> rfl

/-- Projection lemma: `upd` at the updated key. -/
theorem upd_self {k a : Type} [DecidableEq k] (f : k → a) (x : k) (v : a) :
    upd f x v x = v := by
  simp [upd]

/-- Shape of a dirty computed read: either the fuel ran out, or the
evaluation completed and the `finally` block has unconditionally set
`disallowWrites` to `false`, cleared the dirty flag, and popped the
observer stack back to where it was. -/
theorem computedGet_dirty_shape (fuel : Nat) (env : Env) (c : Nat) (s : St)
    (h : (s.comps c).hasChanges = true) :
    (interp (fuel + 1) env (.computedGet c) s).2 = .oot ∨
    ((interp (fuel + 1) env (.computedGet c) s).1.disallowWrites = false ∧
      ((interp (fuel + 1) env (.computedGet c) s).1.comps c).hasChanges = false) := by
  simp only [interp]
  rw [show ((registerDependency (.obs (.comp c)) s).comps c).hasChanges = true by
        rw [registerDependency_comps]; exact h]
  simp only [if_true]
  split
  · left; rfl
  · rename_i s9 heq
    split at heq
    · exact absurd heq (by simp)
    · cases heq
      right
      constructor
      · split <;> rfl
      · split <;> simp [upd_self]
    · cases heq
      right
      constructor
      · split <;> rfl
      · split <;> simp [upd_self]

/-- The write-violation error as described through the `Solo` computed
boundary. -/
def c7ViolationErr : Err :=
  { id := 0, msg := "Error in Solo: Writing to signals not allowed in this context.",
    statin := true, circular := false }

/-- C7 amended: when a Computed's evaluation reads a nested Computed,
the tracking-suppression flag is restored on exit, but the
writes-disallowed flag is unconditionally cleared to `false` when any
dirty evaluation exits (it is not restored to its prior value); a
signal write attempted in the outer compute function after the nested
read therefore succeeds with no write-violation error, while a write
during a computed evaluation with no intervening nested read still
throws the write-violation error. -/
theorem c7_amended_flags_on_nested_exit :
    (c7Run.2 = .ok (.num 42) ∧ c7Run.1.sigs 1 = .num 5 ∧
      c7Run.1.doNotTrack = false ∧ c7Run.1.disallowWrites = false) ∧
    c7SoloRun.2 = .thrown c7ViolationErr ∧
    (∀ (fuel : Nat) (env : Env) (c : Nat) (s : St),
      (s.comps c).hasChanges = true →
      (interp (fuel + 1) env (.computedGet c) s).2 ≠ .oot →
      (interp (fuel + 1) env (.computedGet c) s).1.disallowWrites = false) := by
  refine ⟨by decide, by decide, ?_⟩
  intro fuel env c s h ho
  rcases computedGet_dirty_shape fuel env c s h with hoot | hok
  · exact absurd hoot ho
  · exact hok.1

/-- C7 amended witness: the general conjunct instantiated at the solo
writing computed in the pristine state. -/
theorem c7_amended_witness :
    ((initSt (fun _ => .num 0)).comps 2).hasChanges = true ∧
    (interp 100 c7Env (.computedGet 2) (initSt (fun _ => .num 0))).2 ≠ .oot ∧
    (interp 100 c7Env (.computedGet 2) (initSt (fun _ => .num 0))).1.disallowWrites = false :=
  ⟨by decide, by decide,
    c7_amended_flags_on_nested_exit.2.2 99 c7Env 2 (initSt (fun _ => .num 0))
      (by decide) (by decide)⟩

/-! ## C2: identical writes -/

/-- Iterated `signal.set` with the same value, `n` times. -/
def sigWriteIter (fuel : Nat) (env : Env) (i : Nat) (v : JSVal) : Nat → St → St
  | 0, s => s
  | n + 1, s => (sigSet fuel env i v (sigWriteIter fuel env i v n s)).1

/-- One write of a value identical to the stored one: the signal map
and the trace are untouched (if writes are disallowed the call throws
before comparing, which still stores nothing and notifies nobody, only
allocating the error object). -/
theorem sigSet_identical (fuel : Nat) (env : Env) (i : Nat) (v : JSVal) (s : St)
    (h : s.sigs i = v) :
    (sigSet (fuel + 1) env i v s).1.sigs = s.sigs ∧
    (sigSet (fuel + 1) env i v s).1.trace = s.trace ∧
    (sigSet (fuel + 1) env i v s).1.disallowWrites = s.disallowWrites ∧
    (s.disallowWrites = false → sigSet (fuel + 1) env i v s = (s, .ok .undef)) := by
  by_cases hd : s.disallowWrites <;>
    simp [sigSet, interp, newErr, hd, h.symm]

/-- C2: for every signal, writing a value identical (by value equality)
to the currently stored one leaves the stored values unchanged and
notifies no observer (the event trace is unchanged), and this holds for
any number of repeated identical writes; when writes are allowed the
call is a complete no-op returning normally. -/
theorem c2_identical_write_is_noop (fuel n : Nat) (env : Env) (i : Nat) (v : JSVal) (s : St)
    (h : s.sigs i = v) :
    (sigWriteIter (fuel + 1) env i v n s).sigs = s.sigs ∧
    (sigWriteIter (fuel + 1) env i v n s).trace = s.trace ∧
    (s.disallowWrites = false →
      sigWriteIter (fuel + 1) env i v n s = s ∧
      sigSet (fuel + 1) env i v s = (s, .ok .undef)) := by
  induction n with
  | zero => exact ⟨rfl, rfl, fun hw => ⟨rfl, (sigSet_identical fuel env i v s h).2.2.2 hw⟩⟩
  | succ n ihn =>
    obtain ⟨hsg, htr, hid⟩ := ihn
    have hstep := sigSet_identical fuel env i v (sigWriteIter (fuel + 1) env i v n s)
      (by rw [hsg]; exact h)
    refine ⟨?_, ?_, ?_⟩
    · show (sigSet (fuel + 1) env i v (sigWriteIter (fuel + 1) env i v n s)).1.sigs = s.sigs
      rw [hstep.1, hsg]
    · show (sigSet (fuel + 1) env i v (sigWriteIter (fuel + 1) env i v n s)).1.trace = s.trace
      rw [hstep.2.1, htr]
    · intro hw
      have heq := (hid hw).1
      have : sigSet (fuel + 1) env i v s = (s, .ok .undef) := (hid hw).2
      constructor
      · show (sigSet (fuel + 1) env i v (sigWriteIter (fuel + 1) env i v n s)).1 = s
        rw [heq, this]
      · exact this

/-- C2 witness: five repeated writes of the stored value `3` to signal
`0` of the pristine state leave it untouched. -/
theorem c2_identical_write_is_noop_witness :
    (initSt (fun _ => .num 3)).sigs 0 = .num 3 ∧
    (initSt (fun _ => .num 3)).disallowWrites = false ∧
    (sigWriteIter 10 c8Env 0 (.num 3) 5 (initSt (fun _ => .num 3))).sigs =
      (initSt (fun _ => .num 3)).sigs ∧
    sigWriteIter 10 c8Env 0 (.num 3) 5 (initSt (fun _ => .num 3)) = initSt (fun _ => .num 3) :=
  ⟨rfl, rfl,
    (c2_identical_write_is_noop 9 5 c8Env 0 (.num 3) (initSt (fun _ => .num 3)) rfl).1,
    ((c2_identical_write_is_noop 9 5 c8Env 0 (.num 3) (initSt (fun _ => .num 3)) rfl).2.2 rfl).1⟩

/-! ## C3: computed caching -/

/-- Projection lemma: `registerDependency` only touches the dependency
maps — the trace is unchanged. -/
theorem registerDependency_trace (d : Dep) (s : St) :
    (registerDependency d s).trace = s.trace := by
  unfold registerDependency
  cases s.stack.head? <;> simp <;> split <;> rfl

/-- A read of a clean computed (`hasChanges = false`) performs only the
dependency registration and returns the cached value, or re-throws the
cached error. -/
theorem computedGet_clean (fuel : Nat) (env : Env) (c : Nat) (s : St)
    (h : (s.comps c).hasChanges = false) :
    interp (fuel + 1) env (.computedGet c) s =
      (registerDependency (.obs (.comp c)) s,
       if (s.comps c).hasError then .thrown ((s.comps c).error.getD defaultErr)
       else .ok (s.comps c).value) := by
  simp only [interp, registerDependency_comps, h, Bool.false_eq_true, if_false]
  split <;> rfl

/-- Iterated reads of a computed, `n` times. -/
def getIter (fuel : Nat) (env : Env) (c : Nat) : Nat → St → St
  | 0, s => s
  | n + 1, s => (interp fuel env (.computedGet c) (getIter fuel env c n s)).1

/-- C3: (i) any completed read of a computed leaves its cache clean
(`hasChanges = false`); (ii) starting from a clean cache — that is,
with no dependency change since the value was cached — any number of
further reads leaves the event trace unchanged (so the user compute
function is never invoked again) and every such read returns the cached
value, or re-throws the cached error, unchanged.  Together: the compute
function runs at most once — on the first read — across any number of
reads with no intervening dependency change. -/
theorem c3_computed_cached_reads :
    (∀ (fuel : Nat) (env : Env) (c : Nat) (s : St),
      (interp (fuel + 1) env (.computedGet c) s).2 ≠ .oot →
      ((interp (fuel + 1) env (.computedGet c) s).1.comps c).hasChanges = false) ∧
    (∀ (fuel n : Nat) (env : Env) (c : Nat) (s : St),
      (s.comps c).hasChanges = false →
      (getIter (fuel + 1) env c n s).trace = s.trace ∧
      (getIter (fuel + 1) env c n s).comps = s.comps ∧
      (interp (fuel + 1) env (.computedGet c) (getIter (fuel + 1) env c n s)).2 =
        (if (s.comps c).hasError then .thrown ((s.comps c).error.getD defaultErr)
         else .ok (s.comps c).value)) := by
  constructor
  · intro fuel env c s ho
    by_cases h : (s.comps c).hasChanges = true
    · rcases computedGet_dirty_shape fuel env c s h with hoot | hok
      · exact absurd hoot ho
      · exact hok.2
    · have h2 : (s.comps c).hasChanges = false := by
        rcases hb : (s.comps c).hasChanges
        · rfl
        · exact absurd hb h
      simp [computedGet_clean fuel env c s h2, registerDependency_comps, h2]
  · intro fuel n env c s h
    induction n with
    | zero =>
      refine ⟨rfl, rfl, ?_⟩
      rw [show getIter (fuel + 1) env c 0 s = s from rfl, computedGet_clean fuel env c s h]
    | succ n ihn =>
      obtain ⟨htr, hcm, _⟩ := ihn
      have hclean : ((getIter (fuel + 1) env c n s).comps c).hasChanges = false := by
        rw [hcm]; exact h
      have hstep := computedGet_clean fuel env c (getIter (fuel + 1) env c n s) hclean
      have hnext : getIter (fuel + 1) env c (n + 1) s =
          registerDependency (.obs (.comp c)) (getIter (fuel + 1) env c n s) := by
        show (interp (fuel + 1) env (.computedGet c) (getIter (fuel + 1) env c n s)).1 = _
        rw [hstep]
      refine ⟨?_, ?_, ?_⟩
      · rw [hnext, registerDependency_trace, htr]
      · rw [hnext, registerDependency_comps, hcm]
      · rw [hnext]
        have hclean2 : ((registerDependency (.obs (.comp c))
            (getIter (fuel + 1) env c n s)).comps c).hasChanges = false := by
          rw [registerDependency_comps]; exact hclean
        rw [computedGet_clean fuel env c _ hclean2, registerDependency_comps, hcm]

/-- C3 witness: after one read of the C4 throwing computed the cache is
clean, and three further reads leave the trace unchanged and re-throw
the cached error. -/
theorem c3_computed_cached_reads_witness :
    ((interp 100 c4Env (.computedGet 0) c4S0).2 ≠ .oot →
      ((interp 100 c4Env (.computedGet 0) c4S0).1.comps 0).hasChanges = false) ∧
    ((c4Get1.1.comps 0).hasChanges = false) ∧
    (getIter 100 c4Env 0 3 c4Get1.1).trace = c4Get1.1.trace ∧
    (interp 100 c4Env (.computedGet 0) (getIter 100 c4Env 0 3 c4Get1.1)).2 =
      .thrown c4ErrFoo :=
  ⟨c3_computed_cached_reads.1 99 c4Env 0 c4S0,
   by decide,
   (c3_computed_cached_reads.2 99 3 c4Env 0 c4Get1.1 (by decide)).1,
   by
    have hh := (c3_computed_cached_reads.2 99 3 c4Env 0 c4Get1.1 (by decide)).2.2
    rw [hh]
    decide⟩

/-! ## C10: edit and changed bypass the write guard -/

/-- Helper: `signal.changed` on a signal with no observers completes
normally leaving the signal map and trace unchanged — regardless of the
`disallowWrites` flag, which `changed` never consults. -/
theorem sigChanged_no_observers (fuel : Nat) (env : Env) (i : Nat) (s : St)
    (hobs : s.observerMap (.sig i) = []) :
    (sigChanged (fuel + 5) env i s).2 = .ok .undef ∧
    (sigChanged (fuel + 5) env i s).1.sigs = s.sigs ∧
    (sigChanged (fuel + 5) env i s).1.trace = s.trace ∧
    (sigChanged (fuel + 5) env i s).1.disallowWrites = s.disallowWrites := by
  rcases hq : s.effectQueue with _ | q <;>
    simp [sigChanged, interp, hq, hobs, bulkBodyName]

/-- C10 scenario: a once observer subscribed to signal `1`. -/
def c10Once : OnceKind := .user (.readSig 1) (.retE (.lit 0)) ("OE") ("OO") false

/-- C10 scenario: a computed that edits signal `1` during its own
evaluation. -/
def c10CompEditor : CompDef :=
  { name := "Editor", compute := .seq (.editAddSig 1 3) (.retE (.lit 1)) }

/-- C10 scenario: a computed that calls `changed()` on signal `1`
during its own evaluation. -/
def c10CompChanger : CompDef :=
  { name := "Changer", compute := .seq (.changedSig 1) (.retE (.lit 2)) }

/-- C10 scenario: a computed that calls `set` on signal `1` during its
own evaluation. -/
def c10CompWriter : CompDef := { name := "Writer", compute := .writeSig 1 (.lit 9) }

/-- C10 scenario environment. -/
def c10Env : Env :=
  { comps := fun c =>
      if c = 0 then c10CompEditor else if c = 1 then c10CompChanger else c10CompWriter,
    rxs := fun _ => emptyRxDef }

/-- C10 scenario: the once observer (id `0`) subscribed to signal `1`. -/
def c10Setup : St := (onceCreate 100 c10Env c10Once (initSt (fun _ => .num 0))).1

/-- C10 scenario: read the editing computed. -/
def c10EditRun : St × Res := computedGet 200 c10Env 0 c10Setup

/-- C10 scenario: read the changed-calling computed. -/
def c10ChangedRun : St × Res := computedGet 200 c10Env 1 c10Setup

/-- C10 scenario: read the writing computed. -/
def c10WriteRun : St × Res := computedGet 200 c10Env 2 c10Setup

/-- The write-violation error as described through the `Writer`
computed boundary. -/
def c10ViolationErr : Err :=
  { id := 0, msg := "Error in Writer: Writing to signals not allowed in this context.",
    statin := true, circular := false }

/-- C10: only `set` consults the writes-disallowed flag.  Generally,
with the flag set, `edit` still applies the mutator to the stored value
and `changed` still completes normally (both shown with no observers,
where the notification is empty); and concretely, during a computed's
evaluation (writes disallowed) `edit` applies its mutator and notifies
the subscribed once observer, `changed` notifies it likewise, while
`set` in the same position throws the write-violation error. -/
theorem c10_edit_changed_bypass_write_guard :
    (∀ (fuel : Nat) (env : Env) (i : Nat) (f : JSVal → JSVal) (s : St),
      s.disallowWrites = true → s.observerMap (.sig i) = [] →
      (sigEdit (fuel + 6) env i f s).2 = .ok .undef ∧
      (sigEdit (fuel + 6) env i f s).1.sigs = upd s.sigs i (f (s.sigs i)) ∧
      (sigEdit (fuel + 6) env i f s).1.trace = s.trace) ∧
    (∀ (fuel : Nat) (env : Env) (i : Nat) (s : St),
      s.disallowWrites = true → s.observerMap (.sig i) = [] →
      (sigChanged (fuel + 5) env i s).2 = .ok .undef ∧
      (sigChanged (fuel + 5) env i s).1.trace = s.trace) ∧
    (c10EditRun.2 = .ok (.num 1) ∧ c10EditRun.1.sigs 1 = .num 3 ∧
      c10EditRun.1.trace.countP (isOnceEffectRun 0) = 1) ∧
    (c10ChangedRun.2 = .ok (.num 2) ∧
      c10ChangedRun.1.trace.countP (isOnceEffectRun 0) = 1) ∧
    c10WriteRun.2 = .thrown c10ViolationErr := by
  refine ⟨?_, ?_, by decide, by decide, by decide⟩
  · intro fuel env i f s _ hobs
    have hmid := sigChanged_no_observers fuel env i
      { s with sigs := upd s.sigs i (f (s.sigs i)) } (by simpa using hobs)
    have hstep : sigEdit (fuel + 6) env i f s =
        sigChanged (fuel + 5) env i { s with sigs := upd s.sigs i (f (s.sigs i)) } := by
      simp [sigEdit, sigChanged, interp]
    rw [hstep]
    exact ⟨hmid.1, by rw [hmid.2.1], hmid.2.2.1⟩
  · intro fuel env i s _ hobs
    have h := sigChanged_no_observers fuel env i s hobs
    exact ⟨h.1, h.2.2.1⟩

/-- C10 witness: the general conjuncts instantiated on the pristine
state with the flag forced on. -/
theorem c10_edit_changed_bypass_write_guard_witness :
    ({ initSt (fun _ => .num 2) with disallowWrites := true } : St).disallowWrites = true ∧
    ({ initSt (fun _ => .num 2) with disallowWrites := true } : St).observerMap (.sig 0) = [] ∧
    (sigEdit 10 c8Env 0 (fun v => .num (v.toInt + 5))
      { initSt (fun _ => .num 2) with disallowWrites := true }).2 = .ok .undef ∧
    (sigEdit 10 c8Env 0 (fun v => .num (v.toInt + 5))
      { initSt (fun _ => .num 2) with disallowWrites := true }).1.sigs =
      upd ({ initSt (fun _ => .num 2) with disallowWrites := true } : St).sigs 0
        (.num (((initSt (fun _ => .num 2)).sigs 0).toInt + 5)) :=
  ⟨rfl, rfl,
    (c10_edit_changed_bypass_write_guard.1 4 c8Env 0 (fun v => .num (v.toInt + 5))
      { initSt (fun _ => .num 2) with disallowWrites := true } rfl rfl).1,
    (c10_edit_changed_bypass_write_guard.1 4 c8Env 0 (fun v => .num (v.toInt + 5))
      { initSt (fun _ => .num 2) with disallowWrites := true } rfl rfl).2.1⟩

/-! ## C9: notify skips the observer on top of the stack -/

/-- The state built by the enqueue branch of the trigger loop: the
enqueue event is recorded and the observer is added (set semantics) to
the open effect queue. -/
def enqPrep (o1 : Obs) (s : St) : St :=
  { emit s (.enqObs o1) with
    effectQueue := (emit s (.enqObs o1)).effectQueue.map (fun t => setAdd t o1) }

/-- The state built by a computed observer before it propagates to its
own dependents: the invocation event is recorded, the computed is
marked dirty with its error discarded, and its edges are cleared. -/
def runObsPrep (c : Nat) (s : St) : St :=
  clearDependencies (.comp c)
    { emit s (.fireObs (.comp c)) with
      comps := upd (emit s (.fireObs (.comp c))).comps c
        { (emit s (.fireObs (.comp c))).comps c with
          hasError := false, error := none, hasChanges := true } }

/-- Unfolding lemma: out of fuel. -/
theorem interp_zero (env : Env) (q : Call) (s : St) : interp 0 env q s = (s, .oot) := rfl

/-- Unfolding lemma: `triggerObservers` snapshots the observer set and
the stack top, then loops. -/
theorem triggerObservers_unfold (fuel : Nat) (env : Env) (d : Dep) (s : St) :
    interp (fuel + 1) env (.triggerObservers d) s =
      interp fuel env (.trigLoop (s.observerMap d) s.stack.head?) s := rfl

/-- Unfolding lemma: the empty loop returns. -/
theorem trigLoop_nil_unfold (fuel : Nat) (env : Env) (cur : Option Obs) (s : St) :
    interp (fuel + 1) env (.trigLoop [] cur) s = (s, .ok .undef) := rfl

/-- Unfolding lemma: one step of the trigger loop — skip the captured
current observer, enqueue a non-computed observer while the queue is
open, otherwise invoke inline. -/
theorem trigLoop_cons_unfold (fuel : Nat) (env : Env) (o1 : Obs) (rest : List Obs)
    (cur : Option Obs) (s : St) :
    interp (fuel + 1) env (.trigLoop (o1 :: rest) cur) s =
      (if cur = some o1 then interp fuel env (.trigLoop rest cur) s
       else if s.effectQueue.isSome && !isComputedObs o1 then
         interp fuel env (.trigLoop rest cur) (enqPrep o1 s)
       else
         match interp fuel env (.runObs o1) s with
         | (s2, .ok _) => interp fuel env (.trigLoop rest cur) s2
         | (s2, .thrown e) => (s2, .thrown e)
         | (s2, .oot) => (s2, .oot)) := rfl

/-- Unfolding lemma: a computed observer invalidates itself and then
notifies its own dependents. -/
theorem runObs_comp_unfold (fuel : Nat) (env : Env) (c : Nat) (s : St) :
    interp (fuel + 1) env (.runObs (.comp c)) s =
      interp fuel env (.triggerObservers (.obs (.comp c))) (runObsPrep c s) := rfl

/-- Projection lemma: the enqueue step preserves the stack. -/
theorem enqPrep_stack (o1 : Obs) (s : St) : (enqPrep o1 s).stack = s.stack := rfl

/-- Projection lemma: the enqueue step records exactly its event. -/
theorem enqPrep_trace (o1 : Obs) (s : St) :
    (enqPrep o1 s).trace = .enqObs o1 :: s.trace := rfl

/-- Projection lemma: the enqueue step keeps the queue open. -/
theorem enqPrep_isSome (o1 : Obs) (s : St) :
    (enqPrep o1 s).effectQueue.isSome = s.effectQueue.isSome := by
  cases hq : s.effectQueue <;> simp [enqPrep, emit, hq]

/-- Projection lemma: the computed-observer step preserves the stack. -/
theorem runObsPrep_stack (c : Nat) (s : St) : (runObsPrep c s).stack = s.stack := rfl

/-- Projection lemma: the computed-observer step records exactly its
invocation event. -/
theorem runObsPrep_trace (c : Nat) (s : St) :
    (runObsPrep c s).trace = .fireObs (.comp c) :: s.trace := rfl

/-- Projection lemma: the computed-observer step leaves the queue as it
was. -/
theorem runObsPrep_effectQueue (c : Nat) (s : St) :
    (runObsPrep c s).effectQueue = s.effectQueue := rfl

/-- Outcome of a notification cascade started from a state whose
observer stack has `o` on top and whose effect queue is open: the stack
and the open queue are preserved; the events added to the trace never
invoke (`fireObs o`) nor enqueue (`enqObs o`) the observer `o`; and
when the cascade completes normally, every observer of `watch` other
than `o` was invoked or enqueued. -/
def TrigOut (o : Obs) (s s1 : St) (r : Res) (watch : List Obs) : Prop :=
  s1.stack = s.stack ∧ s1.effectQueue.isSome = true ∧
  ∃ ext, s1.trace = ext ++ s.trace ∧
    (∀ e ∈ ext, e ≠ Event.fireObs o ∧ e ≠ Event.enqObs o) ∧
    (∀ v, r = Res.ok v → ∀ p ∈ watch, p ≠ o → Event.fireObs p ∈ ext ∨ Event.enqObs p ∈ ext)

attribute [reducible] TrigOut

/-- The mutual induction behind C9, over `triggerObservers`, its loop,
and inline computed-observer invocations: under an open effect queue
with observer `o` on top of the stack, a notification cascade never
fires nor enqueues `o`, keeps the stack and the open queue intact, and
(when it completes) delivers every other snapshot member. -/
theorem trigAux (fuel : Nat) : ∀ (env : Env) (s : St) (o : Obs),
    s.stack.head? = some o → s.effectQueue.isSome = true →
    ((∀ d s1 r, interp fuel env (.triggerObservers d) s = (s1, r) →
        TrigOut o s s1 r (s.observerMap d)) ∧
     (∀ l s1 r, interp fuel env (.trigLoop l (some o)) s = (s1, r) →
        TrigOut o s s1 r l) ∧
     (∀ c s1 r, Obs.comp c ≠ o → interp fuel env (.runObs (.comp c)) s = (s1, r) →
        s1.stack = s.stack ∧ s1.effectQueue.isSome = true ∧
        ∃ ext, s1.trace = ext ++ s.trace ∧
          (∀ e ∈ ext, e ≠ Event.fireObs o ∧ e ≠ Event.enqObs o) ∧
          (∀ v, r = Res.ok v → Event.fireObs (Obs.comp c) ∈ ext))) := by
  induction fuel with
  | zero =>
    intro env s o hhead hq
    refine ⟨?_, ?_, ?_⟩
    · intro d s1 r heq
      rw [interp_zero] at heq
      cases heq
      exact ⟨rfl, hq, [], by simp, by simp, fun v hv => nomatch hv⟩
    · intro l s1 r heq
      rw [interp_zero] at heq
      cases heq
      exact ⟨rfl, hq, [], by simp, by simp, fun v hv => nomatch hv⟩
    · intro c s1 r _ heq
      rw [interp_zero] at heq
      cases heq
      exact ⟨rfl, hq, [], by simp, by simp, fun v hv => nomatch hv⟩
  | succ fuel ih =>
    intro env s o hhead hq
    obtain ⟨_, ihB, ihC⟩ := ih env s o hhead hq
    refine ⟨?_, ?_, ?_⟩
    · intro d s1 r heq
      rw [triggerObservers_unfold, hhead] at heq
      exact ihB (s.observerMap d) s1 r heq
    · intro l s1 r heq
      cases l with
      | nil =>
        rw [trigLoop_nil_unfold] at heq
        cases heq
        exact ⟨rfl, hq, [], by simp, by simp,
          fun v hv p hp => absurd hp (List.not_mem_nil p)⟩
      | cons o1 rest =>
        rw [trigLoop_cons_unfold] at heq
        by_cases ho1 : o1 = o
        · subst ho1
          rw [if_pos rfl] at heq
          obtain ⟨hst, hqq, ext, htr, hns, hdel⟩ := ihB rest s1 r heq
          refine ⟨hst, hqq, ext, htr, hns, ?_⟩
          intro v hv p hp hpo
          rcases List.mem_cons.mp hp with h1 | h2
          · exact absurd h1 hpo
          · exact hdel v hv p h2 hpo
        · rw [if_neg (fun hc => ho1 (Option.some.inj hc).symm)] at heq
          cases o1 with
          | once u =>
            rw [show (s.effectQueue.isSome && !isComputedObs (Obs.once u)) = true by
                  simp [isComputedObs, hq]] at heq
            rw [if_pos rfl] at heq
            have hph : (enqPrep (Obs.once u) s).stack.head? = some o := by
              rw [enqPrep_stack]; exact hhead
            have hpq : (enqPrep (Obs.once u) s).effectQueue.isSome = true := by
              rw [enqPrep_isSome]; exact hq
            obtain ⟨_, ihB2, _⟩ := ih env (enqPrep (Obs.once u) s) o hph hpq
            obtain ⟨hst, hqq, ext2, htr, hns, hdel⟩ := ihB2 rest s1 r heq
            refine ⟨by rw [hst, enqPrep_stack], hqq,
              ext2 ++ [Event.enqObs (Obs.once u)], ?_, ?_, ?_⟩
            · rw [htr, enqPrep_trace]; simp
            · intro e he
              rcases List.mem_append.mp he with h1 | h2
              · exact hns e h1
              · rw [List.mem_singleton] at h2
                subst h2
                refine ⟨by simp, ?_⟩
                simp only [ne_eq, Event.enqObs.injEq]
                exact fun hcon => ho1 hcon
            · intro v hv p hp hpo
              rcases List.mem_cons.mp hp with h1 | h2
              · subst h1
                exact Or.inr (List.mem_append_right _ (List.mem_singleton.mpr rfl))
              · rcases hdel v hv p h2 hpo with hl | hr
                · exact Or.inl (List.mem_append_left _ hl)
                · exact Or.inr (List.mem_append_left _ hr)
          | comp c =>
            rw [show (s.effectQueue.isSome && !isComputedObs (Obs.comp c)) = false by
                  simp [isComputedObs]] at heq
            rw [if_neg (by simp)] at heq
            rcases hrun : interp fuel env (.runObs (.comp c)) s with ⟨sC, rC⟩
            rw [hrun] at heq
            obtain ⟨hstC, hqC, extC, htrC, hnsC, hmemC⟩ := ihC c sC rC ho1 hrun
            cases rC with
            | ok v0 =>
              have hheadC : sC.stack.head? = some o := by rw [hstC]; exact hhead
              obtain ⟨_, ihB2, _⟩ := ih env sC o hheadC hqC
              obtain ⟨hst, hqq, extB, htrB, hnsB, hdelB⟩ := ihB2 rest s1 r heq
              refine ⟨by rw [hst, hstC], hqq, extB ++ extC, ?_, ?_, ?_⟩
              · rw [htrB, htrC]; simp
              · intro e he
                rcases List.mem_append.mp he with h1 | h2
                · exact hnsB e h1
                · exact hnsC e h2
              · intro v hv p hp hpo
                rcases List.mem_cons.mp hp with h1 | h2
                · subst h1
                  exact Or.inl (List.mem_append_right _ (hmemC v0 rfl))
                · rcases hdelB v hv p h2 hpo with hl | hr
                  · exact Or.inl (List.mem_append_left _ hl)
                  · exact Or.inr (List.mem_append_left _ hr)
            | thrown e0 =>
              cases heq
              exact ⟨hstC, hqC, extC, htrC, hnsC, fun v hv => nomatch hv⟩
            | oot =>
              cases heq
              exact ⟨hstC, hqC, extC, htrC, hnsC, fun v hv => nomatch hv⟩
    · intro c s1 r hne heq
      rw [runObs_comp_unfold] at heq
      have hph : (runObsPrep c s).stack.head? = some o := by
        rw [runObsPrep_stack]; exact hhead
      have hpq : (runObsPrep c s).effectQueue.isSome = true := by
        rw [runObsPrep_effectQueue]; exact hq
      obtain ⟨ihA2, _, _⟩ := ih env (runObsPrep c s) o hph hpq
      obtain ⟨hst, hqq, extA, htrA, hnsA, _⟩ := ihA2 (.obs (.comp c)) s1 r heq
      refine ⟨by rw [hst, runObsPrep_stack], hqq,
        extA ++ [Event.fireObs (Obs.comp c)], ?_, ?_, ?_⟩
      · rw [htrA, runObsPrep_trace]; simp
      · intro e he
        rcases List.mem_append.mp he with h1 | h2
        · exact hnsA e h1
        · rw [List.mem_singleton] at h2
          subst h2
          refine ⟨?_, by simp⟩
          simp only [ne_eq, Event.fireObs.injEq]
          exact fun hcon => hne hcon
      · intro v _
        exact List.mem_append_right _ (List.mem_singleton.mpr rfl)

/-- C9: `triggerObservers` never invokes nor enqueues the observer on
top of the observer stack — so a dependency change an observer performs
to one of its own dependencies during its own evaluation (a state where
that observer tops the stack and a batch is open) cannot re-trigger it,
even through computed observers running inline; and when the cascade
completes normally, every other observer of the dependency is either
invoked or enqueued. -/
theorem c9_notify_skips_current_observer (fuel : Nat) (env : Env) (s : St) (o : Obs) (d : Dep)
    (hhead : s.stack.head? = some o) (hq : s.effectQueue.isSome = true) :
    TrigOut o s (interp fuel env (.triggerObservers d) s).1
      (interp fuel env (.triggerObservers d) s).2 (s.observerMap d) :=
  (trigAux fuel env s o hhead hq).1 d _ _ rfl

/-- C9 scenario for the witness: signal `0` observed by the evaluating
observer itself, a sibling once observer and a computed observer. -/
def c9St : St :=
  { initSt (fun _ => .num 0) with
    stack := [Obs.once 9], effectQueue := some [],
    observerMap := fun d =>
      if d = .sig 0 then [Obs.once 9, Obs.once 5, Obs.comp 3] else [] }

/-- C9 witness: the theorem applied to a concrete state where the
evaluating once observer `9` observes the changed signal alongside a
sibling once observer and a computed observer. -/
theorem c9_notify_skips_current_observer_witness :
    c9St.stack.head? = some (Obs.once 9) ∧
    c9St.effectQueue.isSome = true ∧
    TrigOut (Obs.once 9) c9St (interp 20 c8Env (.triggerObservers (.sig 0)) c9St).1
      (interp 20 c8Env (.triggerObservers (.sig 0)) c9St).2 (c9St.observerMap (.sig 0)) :=
  ⟨rfl, rfl, c9_notify_skips_current_observer 20 c8Env c9St (Obs.once 9) (.sig 0) rfl rfl⟩

end Statin
